import Mathlib

/-!
Shallow embedding of the `skull` game engine core (Rust crate `core`):
the roster (`Players`), the hidden-hand counter (`Hand`), and the three
in-round phase components (`Placement`, `Bidding`, `Selection`), together
with theorems checking the natural-language specification against this
embedding.

Modelling conventions:
- `PlayerID` (a `u32` newtype) is modelled as `Nat`; the allocation counter
  increment wraps modulo `2 ^ 32` as the Rust `u32` addition does.
- `HashMap<K, V>` values are modelled as association lists
  (`List (Nat × V)`) with first-match lookup, in-place replacement on
  insert, and removal of the first matching entry.  All map iterations the
  source performs over `values()` are order-insensitive except the
  selector choice inside `finish_bidding`, which in the source depends on
  unspecified `HashMap` iteration order; the association list fixes
  insertion order there.
- `u8` quantities (`Hand.num_cards`, bid amounts, `found`, `goal`) are
  `Nat`s; the only `u8` arithmetic the source performs on values that can
  reach the type's bound is `found + 1` in `Selection::pick_card`, which
  is modelled with an explicit `% 256`.
- Fallible Rust functions returning `Result` become `Except`.
-/

namespace Skull

/-- Association-list lookup: value of the first entry with the given key
(models `HashMap::get`). -/
def lookupA {α : Type} (k : Nat) : List (Nat × α) → Option α
  | [] => none
  | (k', v) :: t => if k = k' then some v else lookupA k t

/-- Association-list insert: replace the first entry with the given key in
place, or append a new entry (models `HashMap::insert`). -/
def insertA {α : Type} (k : Nat) (v : α) : List (Nat × α) → List (Nat × α)
  | [] => [(k, v)]
  | (k', v') :: t => if k = k' then (k, v) :: t else (k', v') :: insertA k v t

/-- Association-list removal of the first entry with the given key
(models `HashMap::remove`). -/
def eraseA {α : Type} (k : Nat) : List (Nat × α) → List (Nat × α)
  | [] => []
  | (k', v') :: t => if k = k' then t else (k', v') :: eraseA k t

/-- The values of an association list (models `HashMap::values`). -/
def valuesA {α : Type} (l : List (Nat × α)) : List α :=
  l.map Prod.snd

/-- Key membership (models `HashMap::contains_key`). -/
def containsA {α : Type} (k : Nat) (l : List (Nat × α)) : Bool :=
  (lookupA k l).isSome

/-- Index of the first element satisfying a predicate (models
`Iterator::position`). -/
def posOfP {α : Type} (p : α → Bool) : List α → Option Nat
  | [] => none
  | y :: t => if p y then some 0 else (posOfP p t).map (· + 1)

/-- Index of the first occurrence of an element (models
`iter().position(|p| *p == x)`). -/
def posOf (x : Nat) (l : List Nat) : Option Nat :=
  posOfP (fun y => y == x) l

/-- Remove the first element satisfying a predicate, if any (models the
`if let Some(idx) = position { v.remove(idx) }` pattern). -/
def removeFirstBy {α : Type} (p : α → Bool) (l : List α) : List α :=
  match posOfP p l with
  | some i => l.eraseIdx i
  | none => l

/-- `true` exactly on `Except.ok` results. -/
def exceptIsOk {ε α : Type} : Except ε α → Bool
  | .ok _ => true
  | .error _ => false

/-- `Score` from `types/mod.rs`. -/
inductive Score : Type where
  | Zero
  | WonOne
  | WonGame
deriving DecidableEq

/-- `Card` from `types/mod.rs`. -/
inductive Card : Type where
  | Flower
  | Skull
deriving DecidableEq

/-- `Player` from `types/mod.rs` (`PlayerID` is a `Nat`). -/
structure Player : Type where
  player_id : Nat
  name : String
  score : Score
deriving DecidableEq

/-- `HandError` from `types/mod.rs`. -/
inductive HandError : Type where
  | TooManyCards
  | CardNotFound
deriving DecidableEq

/-- `Hand` from `types/mod.rs`: count of unrevealed cards plus whether the
single skull is among them. -/
structure Hand : Type where
  num_cards : Nat
  has_skull : Bool
deriving DecidableEq

namespace Hand

/-- `Hand::new`. -/
def new : Hand := ⟨4, true⟩

/-- `Hand::num_skulls`. -/
def num_skulls (h : Hand) : Nat :=
  if h.has_skull then 1 else 0

/-- `Hand::num_flowers` (`usize` subtraction; truncated `Nat` subtraction
here — the source value is never negative on hands reachable through the
public constructors). -/
def num_flowers (h : Hand) : Nat :=
  h.num_cards - h.num_skulls

/-- `Hand::remove_card`. -/
def remove_card (h : Hand) (card : Card) : Except HandError (Option Hand) :=
  let has_card :=
    match card with
    | .Skull => h.has_skull
    | .Flower => decide (0 < h.num_flowers)
  if !has_card then
    .error .CardNotFound
  else if 1 < h.num_cards then
    match card with
    | .Skull => .ok (some ⟨h.num_cards - 1, false⟩)
    | .Flower => .ok (some ⟨h.num_cards - 1, h.has_skull⟩)
  else
    .ok none

/-- `Hand::add_card`. -/
def add_card (h : Hand) (card : Card) : Except HandError Hand :=
  if 4 ≤ h.num_cards ∨ (3 ≤ h.num_flowers ∧ card = .Flower) then
    .error .TooManyCards
  else
    match card with
    | .Skull =>
      if h.has_skull then .error .TooManyCards
      else .ok ⟨h.num_cards + 1, true⟩
    | .Flower => .ok ⟨h.num_cards + 1, h.has_skull⟩

/-- `Hand::from_single_card`. -/
def from_single_card (card : Card) : Hand :=
  ⟨1, match card with | .Skull => true | .Flower => false⟩

end Hand

/-- The hands constructible through `Hand`'s public API: the full starting
hand, a single-card hand, and anything obtained from such a hand by a
successful `add_card` or a successful non-emptying `remove_card`. -/
inductive HandReachable : Hand → Prop where
  | base : HandReachable Hand.new
  | single (c : Card) : HandReachable (Hand.from_single_card c)
  | add (h h' : Hand) (c : Card) : HandReachable h →
      Hand.add_card h c = .ok h' → HandReachable h'
  | remove (h h' : Hand) (c : Card) : HandReachable h →
      Hand.remove_card h c = .ok (some h') → HandReachable h'

/-- `PlayerError` from `types/players.rs`. -/
inductive PlayerError : Type where
  | PlayerDoesntExist
  | NotEnoughPlayers
  | PlayerNameTooLong
  | MismatchedPlayerIDs
  | PlayerAlreadyWon
deriving DecidableEq

/-- `Players` from `types/players.rs`: ordered turn list, id→player map,
observer pool, and the next id to allocate. -/
structure Players : Type where
  player_ids : List Nat
  players : List (Nat × Player)
  observers : List Player
  next_player_id : Nat
deriving DecidableEq

namespace Players

/-- `Players::new`. -/
def new : Players := ⟨[], [], [], 1⟩

/-- `Players::next_player`: the player after `player_id` in turn order,
cyclically.  The source indexes `player_ids` modulo the *map's* size; an
out-of-bounds index (a `panic!` in Rust, possible only on rosters whose
list and map sizes disagree) is totalised to `none`. -/
def next_player (ps : Players) (player_id : Nat) : Option Player :=
  match posOf player_id ps.player_ids with
  | none => none
  | some index =>
    match ps.player_ids.get? ((index + 1) % ps.players.length) with
    | none => none
    | some nid => lookupA nid ps.players

/-- First playing member with the given name, in map order
(models `self.players.values().find(|p| p.name == name)`). -/
def findByName (name : String) (players : List (Nat × Player)) : Option Player :=
  (valuesA players).find? (fun p => p.name == name)

/-- `Players::add_player`. -/
def add_player (ps : Players) (name : String) : Except PlayerError (Players × Nat) :=
  if 128 < name.utf8ByteSize then
    .error .PlayerNameTooLong
  else
    match findByName name ps.players with
    | some p => .ok (ps, p.player_id)
    | none =>
      .ok ({ ps with
              players := insertA ps.next_player_id
                ⟨ps.next_player_id, name, .Zero⟩ ps.players,
              player_ids := ps.player_ids ++ [ps.next_player_id],
              next_player_id := (ps.next_player_id + 1) % 4294967296 },
            ps.next_player_id)

/-- `Players::remove_player`. -/
def remove_player (ps : Players) (player_id : Nat) : Except PlayerError Players :=
  match posOf player_id ps.player_ids with
  | none => .error .PlayerDoesntExist
  | some idx =>
    .ok { ps with
          player_ids := ps.player_ids.eraseIdx idx,
          players := eraseA player_id ps.players,
          observers := removeFirstBy (fun p => p.player_id == player_id) ps.observers }

/-- `Players::reorder_players`. -/
def reorder_players (ps : Players) (reordered : List Nat) : Except PlayerError Players :=
  if ps.player_ids.mergeSort (fun a b => decide (a ≤ b)) = reordered.mergeSort (fun a b => decide (a ≤ b)) then
    .ok { ps with player_ids := reordered }
  else
    .error .MismatchedPlayerIDs

/-- `Players::make_player_into_observer`. -/
def make_player_into_observer (ps : Players) (player_id : Nat) :
    Except PlayerError Players :=
  match lookupA player_id ps.players with
  | none => .error .PlayerDoesntExist
  | some player =>
    .ok { ps with
          players := eraseA player_id ps.players,
          player_ids := ps.player_ids.filter (fun p => p != player_id),
          observers := ps.observers ++ [player] }

/-- `Players::make_observer_into_player`. -/
def make_observer_into_player (ps : Players) (player_id : Nat) :
    Except PlayerError Players :=
  match posOfP (fun p => p.player_id == player_id) ps.observers with
  | none => .error .PlayerDoesntExist
  | some idx =>
    match ps.observers.get? idx with
    | none => .error .PlayerDoesntExist
    | some player =>
      .ok { ps with
            observers := ps.observers.eraseIdx idx,
            players := insertA player_id player ps.players,
            player_ids := ps.player_ids ++ [player_id] }

/-- Number of playing members whose score is `WonGame` (models the
`num_winners` count inside `Players::increment_score`). -/
def countWinners (l : List Player) : Nat :=
  (l.filter (fun p => p.score == Score.WonGame)).length

/-- `Players::increment_score`. -/
def increment_score (ps : Players) (player_id : Nat) :
    Except PlayerError (Players × Option Nat) :=
  let num_winners := countWinners (valuesA ps.players)
  match lookupA player_id ps.players with
  | none => .error .PlayerDoesntExist
  | some p =>
    let newScore : Except PlayerError Score :=
      match p.score with
      | .Zero => .ok .WonOne
      | .WonOne => if num_winners = 0 then .ok .WonGame else .error .PlayerAlreadyWon
      | .WonGame => .error .PlayerAlreadyWon
    match newScore with
    | .error e => .error e
    | .ok s =>
      let winning : Option Nat := if s = Score.WonGame then some p.player_id else none
      .ok ({ ps with players := insertA player_id { p with score := s } ps.players },
           winning)

/-- `Players::reset_all_scores`. -/
def reset_all_scores (ps : Players) : Players :=
  { ps with
    players := ps.players.map (fun kv => (kv.1, { kv.2 with score := .Zero })),
    observers := ps.observers.map (fun o => { o with score := .Zero }) }

end Players

/-- `Bid` from `game_states/bidding.rs`. -/
inductive Bid : Type where
  | Pass
  | Amount (n : Nat)
deriving DecidableEq

/-- `BiddingError` from `game_states/bidding.rs`. -/
inductive BiddingError : Type where
  | PlayerDoesntExist
  | InsufficientPlayers
  | AlreadyPassed
  | BidTooLow
  | BidTooHigh
  | BiddingIncomplete
deriving DecidableEq

/-- `PlacementError` from `game_states/placement.rs`. -/
inductive PlacementError : Type where
  | PlayerDoesntExist
  | OutOfCards
  | HandError (e : HandError)
deriving DecidableEq

/-- `DrawError` from `game_states/selection.rs`. -/
inductive DrawError : Type where
  | PlayerDoesntExist
  | NoCardsLeft
deriving DecidableEq

/-- `SelectionError` from `game_states/selection.rs`. -/
inductive SelectionError : Type where
  | IncorrectDrawOrder
  | DrawError (e : DrawError)
deriving DecidableEq

/-- `Selection` from `game_states/selection.rs`. -/
structure Selection : Type where
  players : Players
  selector : Nat
  goal : Nat
  found : Nat
  hands : List (Nat × Hand)
  cards : List (Nat × List Card)
deriving DecidableEq

/-- `SelectionResult` from `game_states/selection.rs`. -/
inductive SelectionResult : Type where
  | Complete (p : Nat)
  | More (s : Selection)
  | Failed (p : Nat)
deriving DecidableEq

namespace Selection

/-- `Selection::new` (its error type in the source is the unit type). -/
def new (selector : Nat) (goal : Nat) (players : Players)
    (cards : List (Nat × List Card)) (hands : List (Nat × Hand)) :
    Except Unit Selection :=
  if goal < cards.length then
    .error ()
  else
    .ok ⟨players, selector, goal, 0, hands, cards⟩

/-- `Selection::draw_card`: pop the most recently committed card of
`player_id`'s stack.  Note the source returns `PlayerDoesntExist` (not
`NoCardsLeft`) when the stack entry exists but is empty. -/
def draw_card (sel : Selection) (player_id : Nat) :
    Except DrawError (Card × List (Nat × List Card)) :=
  if !containsA player_id sel.cards then
    .error .PlayerDoesntExist
  else
    match lookupA player_id sel.cards with
    | none => .error .PlayerDoesntExist
    | some player_cards =>
      match player_cards.getLast? with
      | none => .error .PlayerDoesntExist
      | some card => .ok (card, insertA player_id player_cards.dropLast sel.cards)

/-- `Selection::pick_card`. -/
def pick_card (sel : Selection) (from_player : Nat) :
    Except SelectionError SelectionResult :=
  if sel.selector ≠ from_player ∧
      ((lookupA sel.selector sel.cards).map (fun c => c.isEmpty)).getD false = false then
    .error .IncorrectDrawOrder
  else
    match sel.draw_card from_player with
    | .error e => .error (.DrawError e)
    | .ok (card, cards) =>
      .ok (match card with
        | .Skull => .Failed from_player
        | .Flower =>
          if (sel.found + 1) % 256 = sel.goal then
            .Complete sel.selector
          else
            .More { sel with found := (sel.found + 1) % 256, cards := cards })

end Selection

/-- `Bidding` from `game_states/bidding.rs`. -/
structure Bidding : Type where
  players : Players
  hands : List (Nat × Hand)
  cards : List (Nat × List Card)
  bids : List (Nat × Bid)
  current_player : Nat
deriving DecidableEq

/-- `BiddingResult` from `game_states/bidding.rs`. -/
inductive BiddingResult : Type where
  | KeepBidding (b : Bidding)
  | StartSelection (s : Selection)
deriving DecidableEq

/-- Size of the largest committed stack (models
`cards.values().map(|c| c.len()).max().unwrap_or(0)` in `Bidding::new`). -/
def maxStackLen (cards : List (Nat × List Card)) : Nat :=
  ((valuesA cards).map List.length).foldr Nat.max 0

/-- Total number of committed cards across all stacks (models
`self.cards.values().map(|c| c.len()).sum()` in `Bidding::make_bid`). -/
def sumStackLen (cards : List (Nat × List Card)) : Nat :=
  ((valuesA cards).map List.length).sum

/-- Largest `Amount` recorded among the bids, `0` if none (models the
`min_bid` computation in `Bidding::make_bid`). -/
def maxAmount (bids : List (Nat × Bid)) : Nat :=
  ((valuesA bids).filterMap (fun b =>
    match b with
    | .Amount v => some v
    | .Pass => none)).foldr Nat.max 0

/-- The source's post-acceptance turn scan: the first player found by
walking `ids` cyclically starting at index `offset` (the acting player's
own index) whose recorded bid is not `Pass`; `dflt` (the acting player) if
none is found. -/
def nextNonPassed (ids : List Nat) (bids : List (Nat × Bid)) (offset : Nat)
    (dflt : Nat) : Nat :=
  match (List.range ids.length).find?
      (fun i => decide (lookupA (ids.getD ((i + offset) % ids.length) 0) bids ≠
        some Bid.Pass)) with
  | some i => ids.getD ((i + offset) % ids.length) 0
  | none => dflt

namespace Bidding

/-- `Bidding::new`: seed a bidding phase with one `Amount` bid. -/
def new (players : Players) (hands : List (Nat × Hand))
    (cards : List (Nat × List Card)) (first_bidder : Nat) (amount : Nat) :
    Except BiddingError Bidding :=
  if maxStackLen cards < amount then
    .error .BidTooHigh
  else if amount = 0 then
    .error .BidTooLow
  else
    let bids : List (Nat × Bid) := insertA first_bidder (Bid.Amount amount) []
    match players.next_player first_bidder with
    | none => .error .PlayerDoesntExist
    | some np =>
      if players.player_ids.length < 2 then
        .error .InsufficientPlayers
      else
        .ok ⟨players, hands, cards, bids, np.player_id⟩

/-- `Bidding::finish_bidding`.  The success test keeps the source's
(inverted-looking) condition: a *second* recorded `Amount` must exist
while the number of recorded `Pass`es equals the number of playing
members minus one. -/
def finish_bidding (bd : Bidding) : Except BiddingError Selection :=
  let num_passes := ((valuesA bd.bids).filter (fun b =>
    match b with
    | .Amount _ => false
    | .Pass => true)).length
  let amounts := bd.bids.filterMap (fun kv =>
    match kv.2 with
    | .Amount amt => some (kv.1, amt)
    | .Pass => none)
  match amounts with
  | [] => .error .BiddingIncomplete
  | (selector, goal) :: rest =>
    if rest ≠ [] ∧ num_passes = bd.players.player_ids.length - 1 then
      match Selection.new selector goal bd.players bd.cards bd.hands with
      | .ok sel => .ok sel
      | .error _ => .error .BidTooHigh
    else
      .error .BiddingIncomplete

/-- `Bidding::make_bid`. -/
def make_bid (bd : Bidding) (player_id : Nat) (bid : Bid) :
    Except BiddingError BiddingResult :=
  let existing_bid := lookupA player_id bd.bids
  match posOf player_id bd.players.player_ids with
  | none => .error .PlayerDoesntExist
  | some offset =>
    let min_bid := maxAmount bd.bids
    let max_bid := sumStackLen bd.cards
    let res : Except BiddingError Unit :=
      match existing_bid, bid with
      | some .Pass, .Pass => .error .AlreadyPassed
      | some .Pass, .Amount _ => .error .AlreadyPassed
      | none, .Amount n =>
        if n ≤ min_bid ∨ max_bid < n then .error .BidTooLow else .ok ()
      | some (.Amount _), .Amount n =>
        if n ≤ min_bid ∨ max_bid < n then .error .BidTooLow else .ok ()
      | none, .Pass => .ok ()
      | some (.Amount _), .Pass => .ok ()
    match res with
    | .error e => .error e
    | .ok _ =>
      let new_bids := insertA player_id bid bd.bids
      let new_bidding : Bidding :=
        { bd with
          bids := new_bids,
          current_player := nextNonPassed bd.players.player_ids new_bids offset
            player_id }
      match new_bidding.finish_bidding with
      | .ok sel => .ok (.StartSelection sel)
      | .error _ => .ok (.KeepBidding new_bidding)

end Bidding

/-- `Placement` from `game_states/placement.rs`. -/
structure Placement : Type where
  players : Players
  hands : List (Nat × Hand)
  cards : List (Nat × List Card)
  current_player : Nat
deriving DecidableEq

namespace Placement

/-- `Placement::place_card`. -/
def place_card (pl : Placement) (player_id : Nat) (card : Card) :
    Except PlacementError Placement :=
  match pl.players.next_player player_id with
  | none => .error .PlayerDoesntExist
  | some np =>
    match lookupA player_id pl.hands with
    | none => .error .OutOfCards
    | some h =>
      match h.remove_card card with
      | .error e => .error (.HandError e)
      | .ok newHand =>
        let new_hands :=
          match newHand with
          | some nh => insertA player_id nh (eraseA player_id pl.hands)
          | none => eraseA player_id pl.hands
        let new_cards :=
          match lookupA player_id pl.cards with
          | some v => insertA player_id (v ++ [card]) pl.cards
          | none => insertA player_id [card] pl.cards
        .ok { pl with
              hands := new_hands,
              cards := new_cards,
              current_player := np.player_id }

/-- `Placement::bid`: delegates to `Bidding`'s constructor. -/
def bid (pl : Placement) (player_id : Nat) (amount : Nat) :
    Except BiddingError Bidding :=
  Bidding.new pl.players pl.hands pl.cards player_id amount

end Placement

/-! ## Helper lemmas -/

theorem posOfP_eq_none {α : Type} (p : α → Bool) (l : List α) :
    posOfP p l = none ↔ ∀ a ∈ l, p a = false := by
  induction l with
  | nil => simp [posOfP]
  | cons y t ih =>
    by_cases hy : p y
    · simp [posOfP, hy]
    · simp [posOfP, hy, Option.map_eq_none', ih]

theorem posOf_eq_none {x : Nat} {l : List Nat} : posOf x l = none ↔ x ∉ l := by
  rw [posOf, posOfP_eq_none]
  constructor
  · intro h hx
    have := h x hx
    simp at this
  · intro h a ha
    rcases beq_eq_false_iff_ne.2 (fun he : a = x => h (he ▸ ha)) with hb
    exact hb

/-! ## Concrete fixtures

Small rosters and phase values used by the concrete evaluations below.
`psABC` is the three-member roster of the specification's full-round
scenario (ids 1, 2, 3 in turn order). -/

def psABC : Players :=
  ⟨[1, 2, 3],
   [(1, ⟨1, "a", .Zero⟩), (2, ⟨2, "b", .Zero⟩), (3, ⟨3, "c", .Zero⟩)],
   [], 4⟩

def psAB : Players :=
  ⟨[1, 2], [(1, ⟨1, "a", .Zero⟩), (2, ⟨2, "b", .Zero⟩)], [], 3⟩

/-- The Bidding state of the specification's full-round scenario just
before the final pass: stacks A:[Skull], B:[Flower], C:[Flower], bids
{A: Amount 2, B: Pass}, current turn C (= 3). -/
def bdC1 : Bidding :=
  ⟨psABC, [], [(1, [.Skull]), (2, [.Flower]), (3, [.Flower])],
   [(1, .Amount 2), (2, .Pass)], 3⟩

/-- The Bidding value `make_bid` produces from `bdC1` when player 3
passes. -/
def bdC1after : Bidding :=
  ⟨psABC, [], [(1, [.Skull]), (2, [.Flower]), (3, [.Flower])],
   [(1, .Amount 2), (2, .Pass), (3, .Pass)], 1⟩

/-- A Bidding with two one-card stacks (total committed: 2) and an
existing `Amount 1` bid. -/
def bdC3 : Bidding :=
  ⟨psAB, [], [(1, [.Flower]), (2, [.Flower])], [(1, .Amount 1)], 2⟩

/-- A Bidding in which player 1 has bid `Amount 2` and it is player 2's
turn. -/
def bdC4 : Bidding :=
  ⟨psABC, [], [(1, [.Flower]), (2, [.Flower]), (3, [.Flower])],
   [(1, .Amount 2)], 2⟩

/-- The Bidding value `make_bid` produces from `bdC4` when player 2 bids
`Amount 3`. -/
def bdC4after : Bidding :=
  ⟨psABC, [], [(1, [.Flower]), (2, [.Flower]), (3, [.Flower])],
   [(1, .Amount 2), (2, .Amount 3)], 2⟩

/-- A Placement whose recorded current turn is player 1, with every
member holding a full starting hand. -/
def plC2 : Placement :=
  ⟨psABC, [(1, ⟨4, true⟩), (2, ⟨4, true⟩), (3, ⟨4, true⟩)], [], 1⟩

/-- The Placement produced when player 2 places a Flower on `plC2`. -/
def plC2after : Placement :=
  ⟨psABC, [(1, ⟨4, true⟩), (3, ⟨4, true⟩), (2, ⟨3, true⟩)], [(2, [.Flower])], 3⟩

/-- A Selection (selector 1, goal 2, nothing found yet) whose selector
stack holds two Flowers. -/
def selC5 : Selection :=
  ⟨psABC, 1, 2, 0, [], [(1, [.Flower, .Flower])]⟩

/-- A Selection whose selector has a stack entry that is empty. -/
def selC6 : Selection :=
  ⟨psABC, 1, 2, 0, [], [(1, [])]⟩

/-! ## Claims -/

/-- **C1.** The code's `finish_bidding` success test is unsatisfiable, so
`make_bid` never transitions to Selection.  Evaluated at the
specification's own full-round scenario: after A bid 2 and B passed,
C's pass leaves exactly one recorded `Amount` (player 1's `Amount 2`)
with every other playing member's bid `Pass` — yet `make_bid` returns
`KeepBidding`, not the `StartSelection` the claim requires. -/
theorem make_bid_no_selection_on_resolution :
    bdC1.make_bid 3 Bid.Pass = .ok (.KeepBidding bdC1after) ∧
    lookupA 1 bdC1after.bids = some (Bid.Amount 2) ∧
    lookupA 2 bdC1after.bids = some Bid.Pass ∧
    lookupA 3 bdC1after.bids = some Bid.Pass ∧
    bdC1after.players.player_ids = [1, 2, 3] := by
  refine ⟨?_, ?_, ?_, ?_, ?_⟩ <;> rfl

/-- **C3.** The `Amount` upper bound diverges from the claim in both
places: `Bidding::new` compares the seed amount against the *largest
single stack* (here 1) rather than the total committed cards (here 2),
rejecting a bid of 2 with `BidTooHigh`; and `make_bid` reports
`BidTooLow` — not `BidTooHigh` — for a bid exceeding the total. -/
theorem bid_upper_bound_divergence :
    sumStackLen [(1, [Card.Flower]), (2, [Card.Flower])] = 2 ∧
    maxStackLen [(1, [Card.Flower]), (2, [Card.Flower])] = 1 ∧
    Bidding.new psAB [] [(1, [Card.Flower]), (2, [Card.Flower])] 1 2 =
      .error .BidTooHigh ∧
    sumStackLen bdC3.cards = 2 ∧
    bdC3.make_bid 2 (Bid.Amount 3) = .error .BidTooLow ∧
    BiddingError.BidTooLow ≠ BiddingError.BidTooHigh := by
  refine ⟨rfl, rfl, rfl, rfl, rfl, ?_⟩
  decide

/-- **C6.** Drawing from a player whose stack entry exists but is empty
does not fail with `NoCardsLeft`: the source returns `PlayerDoesntExist`
on the empty `pop`, so the two failures are the *same* error value and
are not distinguishable.  (`selC6` has a stack entry for player 1, as
`containsA` confirms.) -/
theorem draw_empty_stack_not_distinguished :
    containsA 1 selC6.cards = true ∧
    selC6.pick_card 1 = .error (.DrawError .PlayerDoesntExist) ∧
    DrawError.PlayerDoesntExist ≠ DrawError.NoCardsLeft := by
  refine ⟨rfl, rfl, ?_⟩
  decide

/-- **C2 (counterexample).** `place_card` accepts a placement from a
playing member who is *not* the recorded current-turn player: in `plC2`
the current turn is player 1, yet player 2's placement succeeds. -/
theorem place_card_out_of_turn :
    plC2.current_player = 1 ∧ (2 : Nat) ≠ 1 ∧ 2 ∈ plC2.players.player_ids ∧
    plC2.place_card 2 Card.Flower = .ok plC2after := by
  refine ⟨rfl, by decide, by decide, rfl⟩

/-- **C2 (amended).** `place_card` never consults the recorded current
turn: whenever it succeeds, the new current turn is the roster's next
player after the acting `player_id`, and the same call succeeds with the
same result no matter what the input's `current_player` field was. -/
theorem place_card_ignores_turn (pl : Placement) (pid : Nat) (card : Card)
    (pl' : Placement) (h : pl.place_card pid card = .ok pl') :
    (pl.players.next_player pid).map Player.player_id = some pl'.current_player ∧
    ∀ x : Nat, Placement.place_card { pl with current_player := x } pid card =
      .ok pl' := by
  unfold Placement.place_card at h
  cases hnp : pl.players.next_player pid with
  | none => simp [hnp] at h
  | some np =>
    simp only [hnp] at h
    cases hh : lookupA pid pl.hands with
    | none => simp [hh] at h
    | some hand =>
      simp only [hh] at h
      cases hr : hand.remove_card card with
      | error e => simp [hr] at h
      | ok newHand =>
        simp only [hr, Except.ok.injEq] at h
        subst h
        refine ⟨by simp [hnp], ?_⟩
        intro x
        unfold Placement.place_card
        simp only [hnp, hh, hr]

/-- Witness for `place_card_ignores_turn` at `plC2`: player 2 places while
the recorded turn is player 1's, and the same placement also succeeds
after the current-turn field is overwritten with an arbitrary value. -/
theorem place_card_ignores_turn_witness :
    plC2.place_card 2 Card.Flower = .ok plC2after ∧
    (plC2.players.next_player 2).map Player.player_id =
      some plC2after.current_player ∧
    Placement.place_card { plC2 with current_player := 42 } 2 Card.Flower =
      .ok plC2after :=
  ⟨rfl, (place_card_ignores_turn plC2 2 Card.Flower plC2after rfl).1,
   (place_card_ignores_turn plC2 2 Card.Flower plC2after rfl).2 42⟩

/-- The turn target claimed by the specification after an accepted bid:
scan the roster turn order cyclically starting at the acting player's
*successor* and take the first player whose recorded bid is not `Pass`
(falling back to the acting player).  This definition follows the spec's
words, for comparison against the source's `nextNonPassed` scan. -/
def specTurnAfterBid (ids : List Nat) (bids : List (Nat × Bid)) (actor : Nat) :
    Nat :=
  match posOf actor ids with
  | none => actor
  | some offset =>
    match (List.range ids.length).find?
        (fun i => decide (lookupA (ids.getD ((i + offset + 1) % ids.length) 0)
          bids ≠ some Bid.Pass)) with
    | some i => ids.getD ((i + offset + 1) % ids.length) 0
    | none => actor

/-- **C4 (counterexample).** After player 2's accepted `Amount 3` bid on
`bdC4`, the source's scan starts at player 2 *itself* (whose fresh bid is
not `Pass`), so the current turn stays 2 — while the claimed
successor-start scan would select player 3. -/
theorem make_bid_turn_counterexample :
    bdC4.make_bid 2 (Bid.Amount 3) = .ok (.KeepBidding bdC4after) ∧
    bdC4after.current_player = 2 ∧
    specTurnAfterBid bdC4.players.player_ids bdC4after.bids 2 = 3 ∧
    (2 : Nat) ≠ 3 := by
  refine ⟨rfl, rfl, rfl, ?_⟩
  decide

/-- **C4 (amended).** After `make_bid` accepts a bid from player `pid`,
the resulting current turn is the first player found by scanning the
roster turn order cyclically starting at `pid` *itself* (index `off`)
whose recorded bid is not `Pass` — so an accepted `Amount` bid leaves the
turn on the bidder; only a `Pass` moves it on. -/
theorem make_bid_turn_scan (bd : Bidding) (pid : Nat) (b : Bid) (bd' : Bidding)
    (off : Nat) (hoff : posOf pid bd.players.player_ids = some off)
    (h : bd.make_bid pid b = .ok (.KeepBidding bd')) :
    bd'.current_player =
      nextNonPassed bd.players.player_ids (insertA pid b bd.bids) off pid := by
  unfold Bidding.make_bid at h
  simp only [hoff] at h
  split at h
  · exact absurd h (by simp)
  · split at h
    · simp at h
    · simp only [Except.ok.injEq, BiddingResult.KeepBidding.injEq] at h
      subst h
      rfl

/-- Witness for `make_bid_turn_scan` at `bdC4`: player 2's accepted
`Amount 3` bid leaves the current turn at player 2, the value of the
source's own-index scan. -/
theorem make_bid_turn_scan_witness :
    posOf 2 bdC4.players.player_ids = some 1 ∧
    bdC4.make_bid 2 (Bid.Amount 3) = .ok (.KeepBidding bdC4after) ∧
    bdC4after.current_player =
      nextNonPassed bdC4.players.player_ids
        (insertA 2 (Bid.Amount 3) bdC4.bids) 1 2 :=
  ⟨rfl, rfl, make_bid_turn_scan bdC4 2 (Bid.Amount 3) bdC4after 1 rfl rfl⟩

/-- The roster reached by adding players "a" (id 1) and "b" (id 2) and
then moving "b" to the observer pool. -/
def rC7a : Players := ⟨[1], [(1, ⟨1, "a", .Zero⟩)], [], 2⟩

def rC7b : Players :=
  ⟨[1, 2], [(1, ⟨1, "a", .Zero⟩), (2, ⟨2, "b", .Zero⟩)], [], 3⟩

def rC7 : Players := ⟨[1], [(1, ⟨1, "a", .Zero⟩)], [⟨2, "b", .Zero⟩], 3⟩

/-- **C7 (counterexample).** Removing a member who is currently only an
observer does *not* succeed: on the reachable roster `rC7`, whose
observer pool holds member 2, `remove_player 2` fails with
`PlayerDoesntExist` even though 2 is present in the observer list. -/
theorem remove_player_observer_counterexample :
    Players.new.add_player "a" = .ok (rC7a, 1) ∧
    rC7a.add_player "b" = .ok (rC7b, 2) ∧
    rC7b.make_player_into_observer 2 = .ok rC7 ∧
    rC7.observers.map Player.player_id = [2] ∧
    rC7.remove_player 2 = .error .PlayerDoesntExist := by
  refine ⟨rfl, rfl, rfl, rfl, rfl⟩

/-- **C7 (amended).** `remove_player` keys its existence check on the
playing turn order alone: it succeeds exactly when the id is in
`player_ids` (also dropping a matching observer entry), and fails with
`PlayerDoesntExist` whenever the id is absent from the turn order — even
when the id is present in the observer pool. -/
theorem remove_player_requires_playing (r : Players) (id : Nat) :
    (id ∉ r.player_ids → r.remove_player id = .error .PlayerDoesntExist) ∧
    (id ∈ r.player_ids → exceptIsOk (r.remove_player id) = true) := by
  constructor
  · intro hnot
    unfold Players.remove_player
    rw [posOf_eq_none.2 hnot]
  · intro hin
    cases hpos : posOf id r.player_ids with
    | none => exact absurd (posOf_eq_none.1 hpos) (by simp [hin])
    | some i =>
      unfold Players.remove_player
      rw [hpos]
      rfl

/-- Witness for `remove_player_requires_playing` at `rC7`: id 2 is
observing only (absent from the turn order) so removal fails; id 1 is
playing so removal succeeds. -/
theorem remove_player_requires_playing_witness :
    (2 ∉ rC7.player_ids ∧
      rC7.remove_player 2 = .error .PlayerDoesntExist) ∧
    (1 ∈ rC7.player_ids ∧ exceptIsOk (rC7.remove_player 1) = true) :=
  ⟨⟨by decide, (remove_player_requires_playing rC7 2).1 (by decide)⟩,
   ⟨by decide, (remove_player_requires_playing rC7 1).2 (by decide)⟩⟩

/-- The roster reached from `rC7a` by moving player 1 ("a") to the
observer pool: nobody is playing, "a" observes. -/
def rC8 : Players := ⟨[], [], [⟨1, "a", .Zero⟩], 2⟩

/-- The roster `add_player "a"` produces from `rC8`: a *second* member
named "a" is allocated id 2 while observer "a" (id 1) is still there. -/
def rC8post : Players := ⟨[2], [(2, ⟨2, "a", .Zero⟩)], [⟨1, "a", .Zero⟩], 3⟩

/-- **C8 (counterexample).** Name idempotency does not extend to
observers: on the reachable roster `rC8`, whose observer pool already has
a member named "a" (id 1), `add_player "a"` allocates a fresh id 2 and a
new `Player` instead of returning the existing roster and id 1. -/
theorem add_player_observer_name_counterexample :
    Players.new.add_player "a" = .ok (rC7a, 1) ∧
    rC7a.make_player_into_observer 1 = .ok rC8 ∧
    rC8.observers.map Player.name = ["a"] ∧
    rC8.add_player "a" = .ok (rC8post, 2) ∧
    (2 : Nat) ≠ 1 ∧ rC8post ≠ rC8 := by
  refine ⟨rfl, rfl, rfl, rfl, by decide, by decide⟩

/-- **C8 (amended).** `add_player`'s idempotency check consults only the
currently *playing* members' names: if a playing member has the exact
name, the existing roster and that member's id are returned unchanged;
if no playing member has the name — even when an observer does — the next
id is allocated, appended to the turn order, and a fresh `Player` with
score tier `Zero` is inserted. -/
theorem add_player_name_matching (r : Players) (nm : String)
    (hlen : nm.utf8ByteSize ≤ 128) :
    (∀ p, Players.findByName nm r.players = some p →
      r.add_player nm = .ok (r, p.player_id)) ∧
    (Players.findByName nm r.players = none →
      r.add_player nm = .ok ({ r with
          players := insertA r.next_player_id
            ⟨r.next_player_id, nm, .Zero⟩ r.players,
          player_ids := r.player_ids ++ [r.next_player_id],
          next_player_id := (r.next_player_id + 1) % 4294967296 },
        r.next_player_id)) := by
  constructor
  · intro p hp
    unfold Players.add_player
    rw [if_neg (by omega), hp]
  · intro hp
    unfold Players.add_player
    rw [if_neg (by omega), hp]

/-- Witness for `add_player_name_matching`: on `psABC` the playing member
named "a" makes the call idempotent; on `rC8` no playing member is named
"a", so a fresh id is allocated. -/
theorem add_player_name_matching_witness :
    "a".utf8ByteSize ≤ 128 ∧
    Players.findByName "a" psABC.players = some ⟨1, "a", .Zero⟩ ∧
    psABC.add_player "a" = .ok (psABC, 1) ∧
    Players.findByName "a" rC8.players = none ∧
    rC8.add_player "a" = .ok (rC8post, 2) :=
  ⟨by decide, rfl,
   (add_player_name_matching psABC "a" (by decide)).1 ⟨1, "a", .Zero⟩ rfl,
   rfl,
   (add_player_name_matching rC8 "a" (by decide)).2 rfl⟩

/-- Roster states along the two-winner scenario: "a" (id 1) wins a round
and then the game, moves to the observer pool; then "b" (id 2) wins a
round and, with no *playing* `WonGame` holder in sight, wins the game
too. -/
def rW3 : Players :=
  ⟨[1, 2], [(1, ⟨1, "a", .WonOne⟩), (2, ⟨2, "b", .Zero⟩)], [], 3⟩

def rW4 : Players :=
  ⟨[1, 2], [(1, ⟨1, "a", .WonGame⟩), (2, ⟨2, "b", .Zero⟩)], [], 3⟩

def rW5 : Players := ⟨[2], [(2, ⟨2, "b", .Zero⟩)], [⟨1, "a", .WonGame⟩], 3⟩

def rW6 : Players := ⟨[2], [(2, ⟨2, "b", .WonOne⟩)], [⟨1, "a", .WonGame⟩], 3⟩

def rW7 : Players := ⟨[2], [(2, ⟨2, "b", .WonGame⟩)], [⟨1, "a", .WonGame⟩], 3⟩

/-- **C9 (counterexample).** A roster reachable from the empty roster by
roster operations on which `increment_score` produces *two* distinct
members holding `WonGame`: member 1 won the game and became an observer;
`increment_score` then advances member 2 to `WonGame` as well, because
the uniqueness count ignores observers. -/
theorem increment_score_two_winners_counterexample :
    Players.new.add_player "a" = .ok (rC7a, 1) ∧
    rC7a.add_player "b" = .ok (rC7b, 2) ∧
    rC7b.increment_score 1 = .ok (rW3, none) ∧
    rW3.increment_score 1 = .ok (rW4, some 1) ∧
    rW4.make_player_into_observer 1 = .ok rW5 ∧
    rW5.increment_score 2 = .ok (rW6, none) ∧
    rW6.increment_score 2 = .ok (rW7, some 2) ∧
    lookupA 2 rW7.players = some ⟨2, "b", .WonGame⟩ ∧
    rW7.observers = [⟨1, "a", .WonGame⟩] ∧
    (1 : Nat) ≠ 2 := by
  refine ⟨rfl, rfl, rfl, rfl, rfl, rfl, rfl, rfl, rfl, by decide⟩

/-- **C9 (amended).** `increment_score` enforces `WonGame` uniqueness
only among currently *playing* members: it yields a winning player id
(i.e. grants `WonGame`) only when zero playing members currently hold
`WonGame`.  A `WonGame` holder sitting in the observer pool is not
counted, which is how two distinct roster members can come to hold
`WonGame` simultaneously. -/
theorem increment_score_checks_playing_winners (r : Players) (pid w : Nat)
    (r' : Players) (h : r.increment_score pid = .ok (r', some w)) :
    Players.countWinners (valuesA r.players) = 0 := by
  unfold Players.increment_score at h
  cases hl : lookupA pid r.players with
  | none => simp [hl] at h
  | some p =>
    simp only [hl] at h
    cases hs : p.score with
    | Zero => simp [hs] at h
    | WonOne =>
      simp only [hs] at h
      split at h
      · simp at h
      · rename_i s heq
        split at heq
        · assumption
        · simp at heq
    | WonGame => simp [hs] at h

/-- Witness for `increment_score_checks_playing_winners` at `rW6`:
member 2's game-winning increment goes through because no playing member
of `rW6` holds `WonGame` (the `WonGame` holder is observing). -/
theorem increment_score_checks_playing_winners_witness :
    rW6.increment_score 2 = .ok (rW7, some 2) ∧
    Players.countWinners (valuesA rW6.players) = 0 :=
  ⟨rfl, increment_score_checks_playing_winners rW6 2 2 rW7 rfl⟩

/-- **C5.** When the draw-order rule permits the draw and `from_player`'s
stack is non-empty with top (most recently committed) card `c`,
`pick_card` resolves by `c`'s kind: a Skull yields `Failed from_player`;
a Flower completing the goal yields `Complete selector`; a Flower short
of the goal yields `More` with `found` incremented by one and only the
drawn stack changed (its top removed, everything else untouched). -/
theorem pick_card_resolution (sel : Selection) (from_player : Nat)
    (l : List Card) (c : Card)
    (hperm : from_player = sel.selector ∨
      ((lookupA sel.selector sel.cards).map (fun cs => cs.isEmpty)).getD false =
        true)
    (hstack : lookupA from_player sel.cards = some (l ++ [c]))
    (hgoal : sel.goal < 256) :
    (c = Card.Skull → sel.pick_card from_player = .ok (.Failed from_player)) ∧
    (c = Card.Flower → sel.found + 1 = sel.goal →
      sel.pick_card from_player = .ok (.Complete sel.selector)) ∧
    (c = Card.Flower → sel.found + 1 < sel.goal →
      sel.pick_card from_player = .ok (.More { sel with
        found := sel.found + 1,
        cards := insertA from_player l sel.cards })) := by
  have hcond : ¬(sel.selector ≠ from_player ∧
      ((lookupA sel.selector sel.cards).map (fun cs => cs.isEmpty)).getD false =
        false) := by
    rcases hperm with h1 | h2
    · intro hc
      exact hc.1 h1.symm
    · intro hc
      rw [h2] at hc
      exact absurd hc.2 (by simp)
  refine ⟨?_, ?_, ?_⟩
  · intro hc
    subst hc
    have hdraw : sel.draw_card from_player =
        .ok (Card.Skull, insertA from_player l sel.cards) := by
      unfold Selection.draw_card
      simp [containsA, hstack, List.getLast?_concat, List.dropLast_concat]
    unfold Selection.pick_card
    rw [if_neg hcond, hdraw]
  · intro hc hfg
    subst hc
    have hdraw : sel.draw_card from_player =
        .ok (Card.Flower, insertA from_player l sel.cards) := by
      unfold Selection.draw_card
      simp [containsA, hstack, List.getLast?_concat, List.dropLast_concat]
    have hm : (sel.found + 1) % 256 = sel.found + 1 :=
      Nat.mod_eq_of_lt (by omega)
    unfold Selection.pick_card
    rw [if_neg hcond, hdraw]
    simp [hm, hfg, hgoal]
  · intro hc hlt
    subst hc
    have hdraw : sel.draw_card from_player =
        .ok (Card.Flower, insertA from_player l sel.cards) := by
      unfold Selection.draw_card
      simp [containsA, hstack, List.getLast?_concat, List.dropLast_concat]
    have hm : (sel.found + 1) % 256 = sel.found + 1 :=
      Nat.mod_eq_of_lt (by omega)
    unfold Selection.pick_card
    rw [if_neg hcond, hdraw]
    simp [hm, hgoal, Nat.ne_of_lt hlt]

/-- Witness for `pick_card_resolution` at `selC5`: the selector draws
the top Flower of their own two-Flower stack with `found + 1 = 1 < 2 =
goal`, producing `More` with `found` incremented and the stack reduced to
one card. -/
theorem pick_card_resolution_witness :
    (1 = selC5.selector ∨
      ((lookupA selC5.selector selC5.cards).map (fun cs => cs.isEmpty)).getD
        false = true) ∧
    lookupA 1 selC5.cards = some ([Card.Flower] ++ [Card.Flower]) ∧
    selC5.goal < 256 ∧
    selC5.pick_card 1 = .ok (.More { selC5 with
      found := selC5.found + 1, cards := insertA 1 [Card.Flower] selC5.cards }) :=
  ⟨Or.inl rfl, rfl, by decide,
   (pick_card_resolution selC5 1 [Card.Flower] Card.Flower (Or.inl rfl) rfl
      (by decide)).2.2 rfl (by decide)⟩

/-- **C10.** Every hand reachable through `Hand`'s public constructors
and operations holds at most 3 Flowers, and `add_card` rejects a Flower
with `TooManyCards` as soon as the hand already holds 3 Flowers —
regardless of whether the 4-card total limit has been reached — so no
hand ever holds 4 Flowers. -/
theorem add_card_flowers_le (h h' : Hand) (c : Card)
    (heq : h.add_card c = .ok h') (hb : h.num_flowers ≤ 3) :
    h'.num_flowers ≤ 3 := by
  obtain ⟨nc, sk⟩ := h
  cases c with
  | Flower =>
    by_cases hcond : 4 ≤ nc ∨
        (3 ≤ Hand.num_flowers ⟨nc, sk⟩ ∧ Card.Flower = Card.Flower)
    · have hval : Hand.add_card ⟨nc, sk⟩ .Flower = .error .TooManyCards := by
        unfold Hand.add_card
        rw [if_pos hcond]
      rw [hval] at heq
      exact Except.noConfusion heq
    · have hval : Hand.add_card ⟨nc, sk⟩ .Flower = .ok ⟨nc + 1, sk⟩ := by
        unfold Hand.add_card
        rw [if_neg hcond]
      rw [hval] at heq
      simp only [Except.ok.injEq] at heq
      subst heq
      have h3 : ¬3 ≤ Hand.num_flowers ⟨nc, sk⟩ :=
        fun hh => hcond (Or.inr ⟨hh, rfl⟩)
      cases sk with
      | false =>
        have hb2 : ¬3 ≤ nc - 0 := h3
        show nc + 1 - 0 ≤ 3
        omega
      | true =>
        have hb2 : ¬3 ≤ nc - 1 := h3
        show nc + 1 - 1 ≤ 3
        omega
  | Skull =>
    by_cases hcond : 4 ≤ nc ∨
        (3 ≤ Hand.num_flowers ⟨nc, sk⟩ ∧ Card.Skull = Card.Flower)
    · have hval : Hand.add_card ⟨nc, sk⟩ .Skull = .error .TooManyCards := by
        unfold Hand.add_card
        rw [if_pos hcond]
      rw [hval] at heq
      exact Except.noConfusion heq
    · cases sk with
      | true =>
        have hval : Hand.add_card ⟨nc, true⟩ .Skull = .error .TooManyCards := by
          unfold Hand.add_card
          rw [if_neg hcond]
          rfl
        rw [hval] at heq
        exact Except.noConfusion heq
      | false =>
        have hval : Hand.add_card ⟨nc, false⟩ .Skull = .ok ⟨nc + 1, true⟩ := by
          unfold Hand.add_card
          rw [if_neg hcond]
          rfl
        rw [hval] at heq
        simp only [Except.ok.injEq] at heq
        subst heq
        have hb2 : nc - 0 ≤ 3 := hb
        show nc + 1 - 1 ≤ 3
        omega

theorem remove_card_flowers_le (h h' : Hand) (c : Card)
    (heq : h.remove_card c = .ok (some h')) :
    h'.num_flowers ≤ h.num_flowers := by
  obtain ⟨nc, sk⟩ := h
  cases c with
  | Flower =>
    by_cases h0 : 0 < Hand.num_flowers ⟨nc, sk⟩
    · by_cases h1 : 1 < nc
      · have hval : Hand.remove_card ⟨nc, sk⟩ .Flower = .ok (some ⟨nc - 1, sk⟩) := by
          unfold Hand.remove_card
          simp [h0, h1]
        rw [hval] at heq
        simp only [Except.ok.injEq, Option.some.injEq] at heq
        subst heq
        cases sk with
        | false =>
          show nc - 1 - 0 ≤ nc - 0
          omega
        | true =>
          show nc - 1 - 1 ≤ nc - 1
          omega
      · have hval : Hand.remove_card ⟨nc, sk⟩ .Flower = .ok none := by
          unfold Hand.remove_card
          simp [h0, h1]
        rw [hval] at heq
        simp at heq
    · have hval : Hand.remove_card ⟨nc, sk⟩ .Flower = .error .CardNotFound := by
        unfold Hand.remove_card
        simp [h0]
      rw [hval] at heq
      exact Except.noConfusion heq
  | Skull =>
    cases sk with
    | false =>
      have hval : Hand.remove_card ⟨nc, false⟩ .Skull = .error .CardNotFound := by
        unfold Hand.remove_card
        simp
      rw [hval] at heq
      exact Except.noConfusion heq
    | true =>
      by_cases h1 : 1 < nc
      · have hval : Hand.remove_card ⟨nc, true⟩ .Skull =
            .ok (some ⟨nc - 1, false⟩) := by
          unfold Hand.remove_card
          simp [h1]
        rw [hval] at heq
        simp only [Except.ok.injEq, Option.some.injEq] at heq
        subst heq
        show nc - 1 - 0 ≤ nc - 1
        omega
      · have hval : Hand.remove_card ⟨nc, true⟩ .Skull = .ok none := by
          unfold Hand.remove_card
          simp [h1]
        rw [hval] at heq
        simp at heq

/-- **C10.** Every hand reachable through `Hand`'s public constructors
and operations holds at most 3 Flowers, and `add_card` rejects a Flower
with `TooManyCards` as soon as the hand already holds 3 Flowers —
regardless of whether the 4-card total limit has been reached — so no
hand ever holds 4 Flowers. -/
theorem hand_flower_bound (h : Hand) :
    (HandReachable h → h.num_flowers ≤ 3) ∧
    (3 ≤ h.num_flowers →
      h.add_card Card.Flower = .error HandError.TooManyCards) := by
  constructor
  · intro hr
    induction hr with
    | base => decide
    | single c => cases c <;> decide
    | add h h' c _ heq ih => exact add_card_flowers_le h h' c heq ih
    | remove h h' c _ heq ih =>
      exact le_trans (remove_card_flowers_le h h' c heq) ih
  · intro h3
    unfold Hand.add_card
    rw [if_pos (Or.inr ⟨h3, rfl⟩)]

/-- Witness for `hand_flower_bound` at the full starting hand: it is
reachable, holds exactly 3 Flowers (within the bound), and adding a
fourth Flower fails with `TooManyCards` even though the total is 4 only
after the add. -/
theorem hand_flower_bound_witness :
    Hand.new.num_flowers ≤ 3 ∧ 3 ≤ Hand.new.num_flowers ∧
    Hand.new.add_card Card.Flower = .error HandError.TooManyCards :=
  ⟨(hand_flower_bound Hand.new).1 HandReachable.base, by decide,
   (hand_flower_bound Hand.new).2 (by decide)⟩

end Skull
